import Mathlib

/-!
Shallow embedding of `src/claude/generate_mascot.py` (the HORA mascot
generator).  The script is a linear sequence of PIL draw calls on a
1024 x 1024 RGBA canvas, followed by compositing over an opaque dark
background and saving an RGB file and an RGBA file.

Pure numeric helpers are translated directly from the source.  The PIL
drawing library is modelled by an abstract rasterizer acting on an explicit
pixel map (a raster draw call may change pixel contents but never the canvas
size), and `Image.alpha_composite` / `convert('RGB')` are modelled from
Pillow's per-pixel arithmetic (AlphaComposite.c, PRECISION_BITS = 7).
Python floats are idealised as exact rationals (loop parameters, seeded
random draws) or reals (`math.sqrt`-based distances); python `int(...)` is
truncation toward zero and python `//` is floor division (`Int.fdiv`).
-/

set_option maxRecDepth 8192

namespace Mascot

/-- Python `int(...)` (truncation toward zero) on an exact rational. -/
def pyIntQ (q : ℚ) : ℤ := if q < 0 then ⌈q⌉ else ⌊q⌋

open Classical in
/-- Python `int(...)` (truncation toward zero) on a real. -/
noncomputable def pyIntR (x : ℝ) : ℤ := if x < 0 then ⌈x⌉ else ⌊x⌋

/-- An RGBA colour tuple as used by the script (channels are python ints). -/
structure Color where
  r : ℤ
  g : ℤ
  b : ℤ
  a : ℤ
  deriving DecidableEq, Repr

-- === CANVAS ===
def SIZE : ℤ := 1024
def CENTER : ℤ := Int.fdiv SIZE 2   -- SIZE // 2
def CX : ℤ := CENTER
def CY : ℤ := CENTER

-- === COLOR PALETTE ===
def BG_DARK : Color := ⟨10, 10, 13, 255⟩
def GOLD : Color := ⟨212, 168, 83, 255⟩
def GOLD_DARK : Color := ⟨170, 125, 42, 255⟩
def GOLD_WARM : Color := ⟨196, 148, 42, 255⟩
def GOLD_LIGHT : Color := ⟨240, 210, 150, 255⟩
def GOLD_PALE : Color := ⟨255, 235, 190, 255⟩
def BODY_DARK : Color := ⟨30, 30, 36, 255⟩
def BODY_MID : Color := ⟨38, 38, 45, 255⟩
def WING_DARK : Color := ⟨22, 22, 28, 255⟩
def FACE_DISC : Color := ⟨40, 40, 48, 255⟩
def EYE_BG : Color := ⟨6, 6, 8, 255⟩

-- Geometry constants of the script
def OWL_Y : ℤ := -25
def HEAD_Y : ℤ := CY - 185 + OWL_Y
def HEAD_RX : ℤ := 148
def HEAD_RY : ℤ := 125
def EAR_H : ℤ := 70
def EYE_Y : ℤ := HEAD_Y - 10
def EYE_SPACING : ℤ := 62
def BEAK_Y : ℤ := HEAD_Y + 32
def chest_top : ℤ := CY + 15 + OWL_Y
def chest_bot : ℤ := CY + 250 + OWL_Y
def chest_mid : ℤ := Int.fdiv (chest_top + chest_bot) 2
def FEET_Y : ℤ := CY + 280 + OWL_Y

/-- `lerp(c1, c2, t)`: per-channel `int(c1[i] + (c2[i] - c1[i]) * t)`.
The python source iterates `range(len(c1))` (and raises if `c2` is
shorter); for equal-length colour tuples — the only use in the program and
the hypothesis of claim C9 — this is exactly `zipWith`. -/
def lerp (c1 c2 : List ℤ) (t : ℚ) : List ℤ :=
  List.zipWith (fun x y => pyIntQ ((x : ℚ) + ((y : ℚ) - (x : ℚ)) * t)) c1 c2

def colorChannels (c : Color) : List ℤ := [c.r, c.g, c.b, c.a]

def colorOfChannels (l : List ℤ) : Color :=
  ⟨l.getD 0 0, l.getD 1 0, l.getD 2 0, l.getD 3 0⟩

/-- One primitive PIL draw call issued by the script. -/
inductive DrawCmd where
  | ellipse (x0 y0 x1 y1 : ℤ) (fill : Color)
  | ellipseOutline (x0 y0 x1 y1 : ℤ) (width : ℕ) (outline : Color)
  | polygon (pts : List (ℤ × ℤ)) (fill : Color)
  | seg (x1 y1 x2 y2 : ℤ) (fill : Color) (width : ℕ)
  deriving DecidableEq, Repr

/-- `circle(d, cx, cy, r, fill)`. -/
def circle (cx cy r : ℤ) (fill : Color) : DrawCmd :=
  .ellipse (cx - r) (cy - r) (cx + r) (cy + r) fill

/-- `ring(d, cx, cy, r, w, fill)`. -/
def ring (cx cy r : ℤ) (w : ℕ) (fill : Color) : DrawCmd :=
  .ellipseOutline (cx - r) (cy - r) (cx + r) (cy + r) w fill

/-- `poly(d, pts, fill)`. -/
def poly (pts : List (ℤ × ℤ)) (fill : Color) : DrawCmd :=
  .polygon pts fill

/-- `line(d, x1, y1, x2, y2, fill, w)`. -/
def line (x1 y1 x2 y2 : ℤ) (fill : Color) (w : ℕ) : DrawCmd :=
  .seg x1 y1 x2 y2 fill w

/-- `aa_line`: two-pass glow line helper (defined by the script but never
invoked by it). -/
def aa_line (x1 y1 x2 y2 : ℤ) (color : Color) (width : ℕ) : List DrawCmd :=
  [ line x1 y1 x2 y2 ⟨color.r, color.g, color.b, max 10 (Int.fdiv color.a 4)⟩ (width + 3),
    line x1 y1 x2 y2 color width ]

-- =====================================================
-- LAYER 8 data: NEURAL PATTERN (CHEST)
-- =====================================================

/-- The 17 chest-pattern nodes. -/
def nodes : List (ℤ × ℤ) :=
  [ (CX, chest_top + 10),
    (CX - 35, chest_top + 55),
    (CX + 35, chest_top + 55),
    (CX, chest_top + 70),
    (CX - 70, chest_top + 100),
    (CX - 25, chest_top + 110),
    (CX + 25, chest_top + 110),
    (CX + 70, chest_top + 100),
    (CX - 100, chest_top + 155),
    (CX - 55, chest_top + 160),
    (CX, chest_top + 170),
    (CX + 55, chest_top + 160),
    (CX + 100, chest_top + 155),
    (CX - 70, chest_top + 210),
    (CX - 25, chest_top + 220),
    (CX + 25, chest_top + 220),
    (CX + 70, chest_top + 210) ]

/-- The chest-pattern connection index pairs. -/
def conns : List (ℕ × ℕ) :=
  [ (0, 1), (0, 2), (0, 3),
    (1, 4), (1, 5), (2, 6), (2, 7), (3, 5), (3, 6),
    (4, 8), (4, 9), (5, 9), (5, 10), (6, 10), (6, 11), (7, 11), (7, 12),
    (8, 13), (9, 13), (9, 14), (10, 14), (10, 15), (11, 15), (11, 16), (12, 16),
    (1, 3), (2, 3),
    (4, 5), (6, 7),
    (8, 9), (9, 10), (10, 11), (11, 12),
    (13, 14), (14, 15), (15, 16) ]

/-- `nodes[i]` (list indexing; claim C8 shows all used indices are valid). -/
def nodePos (i : ℕ) : ℤ × ℤ := nodes.getD i (0, 0)

/-- Euclidean distance `math.sqrt((x2 - x1)**2 + (y2 - y1)**2)`. -/
noncomputable def euclid (p q : ℤ × ℤ) : ℝ :=
  Real.sqrt (((q.1 - p.1 : ℤ) : ℝ) ^ 2 + ((q.2 - p.2 : ℤ) : ℝ) ^ 2)

/-- `base_alpha = 100 + int(50 * (1 - min(dist / 200, 1)))`. -/
noncomputable def base_alpha (dist : ℝ) : ℤ :=
  100 + pyIntR (50 * (1 - min (dist / 200) 1))

/-- Distance between the two endpoints of a connection. -/
noncomputable def connDist (ab : ℕ × ℕ) : ℝ :=
  euclid (nodePos ab.1) (nodePos ab.2)

/-- The base alpha the script computes for a connection. -/
noncomputable def connBaseAlpha (ab : ℕ × ℕ) : ℤ :=
  base_alpha (connDist ab)

/-- The four glow passes drawn for each chest connection, in draw order:
`(width, colour)` with alphas `ba//3`, `ba//2`, `ba`, `ba//2`. -/
def connPasses (ba : ℤ) : List (ℕ × Color) :=
  [ (7, ⟨212, 168, 83, Int.fdiv ba 3⟩),
    (4, ⟨212, 168, 83, Int.fdiv ba 2⟩),
    (2, ⟨212, 168, 83, ba⟩),
    (1, ⟨240, 210, 150, Int.fdiv ba 2⟩) ]

/-- Per-tier node drawing parameters: outer-glow radius and alpha, core
radius and alpha, highlight radius (the highlight is drawn in `GOLD_LIGHT`). -/
structure NodeStyle where
  glowR : ℤ
  glowA : ℤ
  coreR : ℤ
  coreA : ℤ
  hiR : ℤ
  deriving DecidableEq, Repr

/-- The fixed tier table of the chest-node drawing loop. -/
def nodeTier (i : ℕ) : NodeStyle :=
  if i = 0 then ⟨12, 60, 7, 220, 4⟩
  else if i ≤ 3 then ⟨10, 50, 6, 200, 3⟩
  else if i ≤ 7 then ⟨8, 45, 5, 180, 2⟩
  else if i ≤ 12 then ⟨7, 40, 4, 160, 2⟩
  else ⟨6, 35, 4, 140, 2⟩

-- =====================================================
-- LAYER 9 data: HEAD NEURAL PATTERN
-- =====================================================

/-- The 8 head-pattern nodes. -/
def h_nodes : List (ℤ × ℤ) :=
  [ (CX, HEAD_Y - 85),
    (CX - 35, HEAD_Y - 70),
    (CX + 35, HEAD_Y - 70),
    (CX - 55, HEAD_Y - 45),
    (CX - 18, HEAD_Y - 48),
    (CX + 18, HEAD_Y - 48),
    (CX + 55, HEAD_Y - 45),
    (CX, HEAD_Y - 28) ]

/-- The head-pattern connection index pairs. -/
def h_conns : List (ℕ × ℕ) :=
  [ (0, 1), (0, 2),
    (1, 3), (1, 4), (2, 5), (2, 6),
    (3, 4), (4, 7), (5, 7), (5, 6),
    (1, 2), (4, 5) ]

/-- The three glow passes drawn for each head connection, in draw order. -/
def hConnPasses : List (ℕ × Color) :=
  [ (5, ⟨212, 168, 83, 30⟩),
    (2, ⟨212, 168, 83, 70⟩),
    (1, ⟨240, 210, 150, 35⟩) ]

-- =====================================================
-- Seeded random generator and ambient particles
-- =====================================================

/-- The seeded generator (`random.seed(42)`), modelled as a deterministic
stream of raw draws; each call of the particle loop consumes the next
stream element.  `random.random()` yields `getrandbits(53) / 2**53`. -/
def RngStream : Type := ℕ → ℕ

def twoPow53 : ℕ := 9007199254740992

/-- One `random.random()` draw, a rational in `[0, 1)`. -/
def unitDraw (g : RngStream) (k : ℕ) : ℚ :=
  ((g k % twoPow53 : ℕ) : ℚ) / (twoPow53 : ℚ)

/-- One ambient particle: the `uniform(0, 2*pi)` angle is stored through its
unit draw `angleU` (the drawn angle is `2*pi*angleU`, see `angleOf`). -/
structure Particle where
  angleU : ℚ
  dist : ℚ
  sz : ℕ
  alpha : ℕ
  deriving DecidableEq, Repr

/-- One iteration of the particle loop: `uniform(0, 2*pi)` (via its unit
draw), `uniform(360, 465) = 360 + (465 - 360)*u`, `choice([1, 1, 2])`,
`randint(15, 45)`. -/
def mkParticle (g : RngStream) (i : ℕ) : Particle :=
  { angleU := unitDraw g (4 * i),
    dist := 360 + (465 - 360) * unitDraw g (4 * i + 1),
    sz := [1, 1, 2].getD (g (4 * i + 2) % 3) 1,
    alpha := 15 + g (4 * i + 3) % 31 }

/-- The 25 ambient particles (`for _ in range(25)`). -/
def particles (g : RngStream) : List Particle :=
  (List.range 25).map (mkParticle g)

/-- The particle's drawn angle `random.uniform(0, 2*math.pi)`. -/
noncomputable def angleOf (p : Particle) : ℝ :=
  2 * Real.pi * (p.angleU : ℝ)

/-- `px = int(CX + dist * cos(angle))`. -/
noncomputable def pxOf (p : Particle) : ℤ :=
  pyIntR ((CX : ℝ) + (p.dist : ℝ) * Real.cos (angleOf p))

/-- `py = int(CY + dist * sin(angle))`. -/
noncomputable def pyOf (p : Particle) : ℤ :=
  pyIntR ((CY : ℝ) + (p.dist : ℝ) * Real.sin (angleOf p))

-- =====================================================
-- The ordered draw-call script, layer by layer
-- =====================================================

/-- Layer 1: background radial gradient, `for r in range(440, 0, -2)`. -/
def bgGradientCmds : List DrawCmd :=
  (List.range 220).map (fun k =>
    let r : ℤ := 440 - 2 * k
    circle CX (CY - 20) r ⟨180, 140, 60, pyIntQ (25 * (1 - (r : ℚ) / 440) ^ 2)⟩)

/-- Layer 2: owl body silhouette (three stacked ellipses). -/
def bodyCmds : List DrawCmd :=
  [ .ellipse (CX - 160) (CY + 30 + OWL_Y) (CX + 160) (CY + 290 + OWL_Y) BODY_DARK,
    .ellipse (CX - 155) (CY - 40 + OWL_Y) (CX + 155) (CY + 180 + OWL_Y) BODY_DARK,
    .ellipse (CX - 130) (CY - 120 + OWL_Y) (CX + 130) (CY + 60 + OWL_Y) BODY_DARK ]

/-- Layer 3: head ellipse and the two ear tufts (`for side in [-1, 1]`). -/
def headCmds : List DrawCmd :=
  [DrawCmd.ellipse (CX - HEAD_RX) (HEAD_Y - HEAD_RY) (CX + HEAD_RX) (HEAD_Y + HEAD_RY) BODY_DARK]
  ++ ([-1, 1] : List ℤ).flatMap (fun side =>
    let ear_x := CX + side * 105
    let ear_tip_x := CX + side * 95
    let ear_base_inner := CX + side * 65
    [ poly [ (ear_x, HEAD_Y - HEAD_RY + 25),
             (ear_tip_x, HEAD_Y - HEAD_RY - EAR_H),
             (ear_base_inner, HEAD_Y - HEAD_RY + 15) ] BODY_DARK,
      line ear_x (HEAD_Y - HEAD_RY + 25) ear_tip_x (HEAD_Y - HEAD_RY - EAR_H)
        ⟨212, 168, 83, 70⟩ 2 ])

/-- Layer 4: facial disc and the V indent. -/
def faceCmds : List DrawCmd :=
  [ .ellipse (CX - 100) (HEAD_Y - 75) (CX + 100) (HEAD_Y + 55) FACE_DISC,
    poly [ (CX - 15, HEAD_Y - 80), (CX, HEAD_Y - 55),
           (CX + 15, HEAD_Y - 80), (CX, HEAD_Y - 90) ] BODY_DARK ]

/-- Layer 5: the two eyes; the iris is a 30-step radial gradient built from
`lerp(GOLD_LIGHT, GOLD_DARK, t*t)` with `t = r/30`. -/
def eyeCmds : List DrawCmd :=
  ([-1, 1] : List ℤ).flatMap (fun side =>
    let ex := CX + side * EYE_SPACING
    [ ring ex EYE_Y 40 3 GOLD,
      circle ex EYE_Y 38 EYE_BG ]
    ++ (List.range 30).map (fun k =>
        let r : ℤ := 30 - k
        let t : ℚ := (r : ℚ) / 30
        circle ex EYE_Y r
          (colorOfChannels (lerp (colorChannels GOLD_LIGHT) (colorChannels GOLD_DARK) (t * t))))
    ++ [ circle ex EYE_Y 12 EYE_BG,
         ring ex EYE_Y 12 1 ⟨212, 168, 83, 40⟩,
         circle (ex - 9) (EYE_Y - 9) 5 GOLD_PALE,
         circle (ex + 5) (EYE_Y + 5) 2 ⟨240, 210, 150, 100⟩ ])

/-- Layer 6: beak. -/
def beakCmds : List DrawCmd :=
  [ poly [ (CX - 11, BEAK_Y), (CX + 11, BEAK_Y), (CX, BEAK_Y + 22) ] GOLD_WARM,
    line (CX - 10) (BEAK_Y + 1) CX (BEAK_Y + 20) GOLD_LIGHT 1 ]

/-- The nine wing silhouette points for one side. -/
def wing_pts (s : ℤ) : List (ℤ × ℤ) :=
  [ (CX + s * 150, CY - 50 + OWL_Y),
    (CX + s * 175, CY + 10 + OWL_Y),
    (CX + s * 200, CY + 80 + OWL_Y),
    (CX + s * 205, CY + 160 + OWL_Y),
    (CX + s * 185, CY + 220 + OWL_Y),
    (CX + s * 155, CY + 260 + OWL_Y),
    (CX + s * 135, CY + 230 + OWL_Y),
    (CX + s * 130, CY + 160 + OWL_Y),
    (CX + s * 135, CY + 60 + OWL_Y) ]

/-- Layer 7: wings — silhouette, edge accents, tip accent, feather lines. -/
def wingCmds : List DrawCmd :=
  ([-1, 1] : List ℤ).flatMap (fun s =>
    [poly (wing_pts s) WING_DARK]
    ++ (List.range 5).map (fun i =>
        let p1 := (wing_pts s).getD i (0, 0)
        let p2 := (wing_pts s).getD (i + 1) (0, 0)
        line p1.1 p1.2 p2.1 p2.2 ⟨212, 168, 83, 55⟩ 2)
    ++ [ line ((wing_pts s).getD 4 (0, 0)).1 ((wing_pts s).getD 4 (0, 0)).2
           ((wing_pts s).getD 5 (0, 0)).1 ((wing_pts s).getD 5 (0, 0)).2
           ⟨212, 168, 83, 70⟩ 2 ]
    ++ ([(0, 7/20), (1, 11/20), (2, 3/4)] : List (ℤ × ℚ)).map (fun jf =>
        let fy := pyIntQ ((CY : ℚ) + (OWL_Y : ℚ) + 20 + jf.2 * 200)
        line (CX + s * 138) fy (CX + s * (195 - jf.1 * 12)) (fy + 12)
          ⟨212, 168, 83, 30⟩ 1))

/-- Layer 8a: warm glow behind the chest pattern, `for r in range(130, 0, -2)`. -/
def chestGlowCmds : List DrawCmd :=
  (List.range 65).map (fun k =>
    let r : ℤ := 130 - 2 * k
    circle CX (chest_mid - 10) r ⟨212, 168, 83, pyIntQ (12 * (1 - (r : ℚ) / 130) ^ 2)⟩)

/-- Layer 8b: the four-pass glow lines of the chest connections. -/
noncomputable def connCmds : List DrawCmd :=
  conns.flatMap (fun ab =>
    let p1 := nodePos ab.1
    let p2 := nodePos ab.2
    (connPasses (connBaseAlpha ab)).map (fun wc => line p1.1 p1.2 p2.1 p2.2 wc.2 wc.1))

/-- Layer 8c: the tiered chest nodes (outer glow, core, highlight). -/
def nodeCmds : List DrawCmd :=
  (List.range nodes.length).flatMap (fun i =>
    let p := nodePos i
    let st := nodeTier i
    [ circle p.1 p.2 st.glowR ⟨212, 168, 83, st.glowA⟩,
      circle p.1 p.2 st.coreR ⟨212, 168, 83, st.coreA⟩,
      circle p.1 p.2 st.hiR GOLD_LIGHT ])

/-- Layer 9a: the three-pass glow lines of the head connections. -/
def headConnCmds : List DrawCmd :=
  h_conns.flatMap (fun ab =>
    let p1 := h_nodes.getD ab.1 (0, 0)
    let p2 := h_nodes.getD ab.2 (0, 0)
    hConnPasses.map (fun wc => line p1.1 p1.2 p2.1 p2.2 wc.2 wc.1))

/-- Layer 9b: the head nodes. -/
def headNodeCmds : List DrawCmd :=
  h_nodes.flatMap (fun p =>
    [ circle p.1 p.2 5 ⟨212, 168, 83, 50⟩,
      circle p.1 p.2 3 ⟨212, 168, 83, 160⟩,
      circle p.1 p.2 1 GOLD_LIGHT ])

/-- Layer 10: feet. -/
def feetCmds : List DrawCmd :=
  ([-1, 1] : List ℤ).flatMap (fun side =>
    let fx := CX + side * 45
    ([-10, 0, 10] : List ℤ).map (fun offset =>
      line (fx + offset) FEET_Y (fx + offset + side * 4) (FEET_Y + 16)
        ⟨212, 168, 83, 80⟩ 2))

/-- Layer 11a: subtle outer ring. -/
def frameCmds : List DrawCmd :=
  [ring CX CY 478 1 ⟨212, 168, 83, 40⟩]

/-- Layer 11b: the 25 seeded ambient particles. -/
noncomputable def particleCmds (g : RngStream) : List DrawCmd :=
  (particles g).map (fun p => circle (pxOf p) (pyOf p) (p.sz : ℤ) ⟨212, 168, 83, (p.alpha : ℤ)⟩)

/-- The complete ordered draw-call script of the render.  Everything except
the ambient particles is constant; the particles are a function of the
seeded generator stream only. -/
noncomputable def renderScript (g : RngStream) : List DrawCmd :=
  bgGradientCmds ++ bodyCmds ++ headCmds ++ faceCmds ++ eyeCmds ++ beakCmds
  ++ wingCmds ++ chestGlowCmds ++ connCmds ++ nodeCmds ++ headConnCmds
  ++ headNodeCmds ++ feetCmds ++ frameCmds ++ particleCmds g

-- =====================================================
-- Canvas, rasterization, compositing and saving
-- =====================================================

/-- An in-memory image: fixed dimensions plus a pixel map. -/
structure Img where
  width : ℕ
  height : ℕ
  pix : ℕ × ℕ → Color

/-- `Image.new('RGBA', (w, h), c)`. -/
def imageNew (w h : ℕ) (c : Color) : Img := ⟨w, h, fun _ => c⟩

/-- A rasterizer interprets one draw call as a pixel-map update.  PIL's
actual scan conversion is library-defined, so it is kept abstract; what the
embedding fixes is that a draw call can only change pixel contents, never
the canvas dimensions. -/
def Rasterizer : Type := DrawCmd → (ℕ × ℕ → Color) → (ℕ × ℕ → Color)

/-- Run the draw-call script over a canvas: dimensions are untouched, the
pixel map is folded through the rasterizer. -/
def applyCmds (rast : Rasterizer) (cmds : List DrawCmd) (im : Img) : Img :=
  ⟨im.width, im.height, cmds.foldl (fun f c => rast c f) im.pix⟩

/-- `SHIFTFORDIV255(a) = ((a >> 8) + a) >> 8` from Pillow. -/
def shiftForDiv255 (x : ℤ) : ℤ := Int.fdiv (Int.fdiv x 256 + x) 256

/-- Per-pixel `Image.alpha_composite` arithmetic, from Pillow's
AlphaComposite.c (`dst` is the backdrop, `src` is composited over it;
PRECISION_BITS = 7). -/
def compositePix (dst src : Color) : Color :=
  if src.a = 0 then dst
  else
    let blend := dst.a * (255 - src.a)
    let outa255 := src.a * 255 + blend
    let coef1 := Int.fdiv (src.a * 255 * 255 * 128) outa255
    let coef2 := 255 * 128 - coef1
    ⟨ Int.fdiv (shiftForDiv255 (src.r * coef1 + dst.r * coef2 + 16384)) 128,
      Int.fdiv (shiftForDiv255 (src.g * coef1 + dst.g * coef2 + 16384)) 128,
      Int.fdiv (shiftForDiv255 (src.b * coef1 + dst.b * coef2 + 16384)) 128,
      shiftForDiv255 (outa255 + 128) ⟩

/-- `Image.alpha_composite(dst, src)`: requires equal sizes, composites
`src` over `dst` per pixel. -/
def alphaComposite (dst src : Img) : Option Img :=
  if dst.width = src.width ∧ dst.height = src.height then
    some ⟨dst.width, dst.height, fun p => compositePix (dst.pix p) (src.pix p)⟩
  else none

/-- An RGB image (no alpha channel), as saved by the opaque output. -/
structure RGBImg where
  width : ℕ
  height : ℕ
  pix : ℕ × ℕ → ℤ × ℤ × ℤ

/-- `convert('RGB')`: drops the alpha channel. -/
def convertRGB (im : Img) : RGBImg :=
  ⟨im.width, im.height, fun p => ((im.pix p).r, (im.pix p).g, (im.pix p).b)⟩

/-- The drawn canvas: the script applied to
`Image.new('RGBA', (SIZE, SIZE), BG_DARK)`. -/
noncomputable def imgDrawn (rast : Rasterizer) (g : RngStream) : Img :=
  applyCmds rast (renderScript g) (imageNew 1024 1024 BG_DARK)

/-- `img_final = Image.alpha_composite(Image.new('RGBA', (SIZE, SIZE),
BG_DARK), img)` — the contents of the saved RGBA file. -/
noncomputable def imgFinal (rast : Rasterizer) (g : RngStream) : Option Img :=
  alphaComposite (imageNew 1024 1024 BG_DARK) (imgDrawn rast g)

/-- `img_rgb = img_final.convert('RGB')` — the contents of the saved opaque
RGB file. -/
noncomputable def imgRGBOut (rast : Rasterizer) (g : RngStream) : Option RGBImg :=
  (imgFinal rast g).map convertRGB

-- =====================================================
-- Helper lemmas
-- =====================================================

/-- The argument of the truncation in `base_alpha` is never negative. -/
theorem baseArg_nonneg (d : ℝ) : 0 ≤ 50 * (1 - min (d / 200) 1) := by
  have h : min (d / 200) 1 ≤ 1 := min_le_right _ _
  nlinarith

/-- On a nonnegative argument `base_alpha` truncates with the floor. -/
theorem base_alpha_eq (d : ℝ) :
    base_alpha d = 100 + ⌊(50 : ℝ) * (1 - min (d / 200) 1)⌋ := by
  unfold base_alpha pyIntR
  rw [if_neg (not_lt.mpr (baseArg_nonneg d))]

/-- Range of `base_alpha` for a nonnegative distance. -/
theorem base_alpha_bounds (d : ℝ) (hd : 0 ≤ d) :
    100 ≤ base_alpha d ∧ base_alpha d ≤ 150 := by
  rw [base_alpha_eq]
  have hm0 : 0 ≤ min (d / 200) 1 :=
    le_min (div_nonneg hd (by norm_num)) zero_le_one
  constructor
  · have : (0 : ℤ) ≤ ⌊(50 : ℝ) * (1 - min (d / 200) 1)⌋ :=
      Int.floor_nonneg.mpr (baseArg_nonneg d)
    omega
  · have harg : (50 : ℝ) * (1 - min (d / 200) 1) ≤ 50 := by nlinarith
    have : ⌊(50 : ℝ) * (1 - min (d / 200) 1)⌋ ≤ ⌊(50 : ℝ)⌋ :=
      Int.floor_le_floor harg
    have h50 : ⌊(50 : ℝ)⌋ = 50 := by norm_num
    omega

/-- Every connection distance is nonnegative (a square root). -/
theorem connDist_nonneg (ab : ℕ × ℕ) : 0 ≤ connDist ab :=
  Real.sqrt_nonneg _

/-- Range of the base alpha of any connection. -/
theorem connBaseAlpha_bounds (ab : ℕ × ℕ) :
    100 ≤ connBaseAlpha ab ∧ connBaseAlpha ab ≤ 150 :=
  base_alpha_bounds _ (connDist_nonneg ab)

/-- Python truncation is the identity on integers. -/
theorem pyIntQ_intCast (n : ℤ) : pyIntQ (n : ℚ) = n := by
  unfold pyIntQ
  split
  · exact Int.ceil_intCast n
  · exact Int.floor_intCast n

/-- Compositing any drawn pixel over the opaque dark background yields
alpha 255 exactly. -/
theorem compositePix_bg_alpha (s : Color) : (compositePix BG_DARK s).a = 255 := by
  unfold compositePix
  split
  · rfl
  · show shiftForDiv255 (s.a * 255 + BG_DARK.a * (255 - s.a) + 128) = 255
    have h : s.a * 255 + BG_DARK.a * (255 - s.a) + 128 = 65153 := by
      show s.a * 255 + 255 * (255 - s.a) + 128 = 65153
      ring
    rw [h]
    decide

/-- The composite of the two 1024-canvases succeeds, with this pixel map. -/
theorem imgFinal_eq (rast : Rasterizer) (g : RngStream) :
    imgFinal rast g =
      some ⟨1024, 1024, fun p => compositePix BG_DARK ((imgDrawn rast g).pix p)⟩ := by
  unfold imgFinal alphaComposite
  rw [if_pos ⟨rfl, rfl⟩]
  rfl

-- =====================================================
-- Claim theorems
-- =====================================================

/-- C5: both emitted image files always have dimensions exactly 1024 x 1024:
the canvas is created at that fixed size, draw calls never resize it, and
both the composite and the RGB conversion preserve the size. -/
theorem c5_dimension_invariant (rast : Rasterizer) (g : RngStream) :
    ∃ f0 r0, imgFinal rast g = some f0 ∧ f0.width = 1024 ∧ f0.height = 1024 ∧
      imgRGBOut rast g = some r0 ∧ r0.width = 1024 ∧ r0.height = 1024 := by
  refine ⟨⟨1024, 1024, fun p => compositePix BG_DARK ((imgDrawn rast g).pix p)⟩,
    convertRGB ⟨1024, 1024, fun p => compositePix BG_DARK ((imgDrawn rast g).pix p)⟩,
    imgFinal_eq rast g, rfl, rfl, ?_, rfl, rfl⟩
  unfold imgRGBOut
  rw [imgFinal_eq rast g]
  rfl

/-- C6: the core-circle radius of the root chest node (index 0) is at least
the core-circle radius of every node of the outermost tier (index >= 13),
per the fixed tier table. -/
theorem c6_root_core_radius (i : ℕ) (h : 13 ≤ i) :
    (nodeTier i).coreR ≤ (nodeTier 0).coreR := by
  have h0 : nodeTier i = ⟨6, 35, 4, 140, 2⟩ := by
    unfold nodeTier
    rw [if_neg, if_neg, if_neg, if_neg] <;> omega
  rw [h0]
  decide

theorem c6_witness : (nodeTier 13).coreR ≤ (nodeTier 0).coreR :=
  c6_root_core_radius 13 (by decide)

/-- C8: the chest pattern has exactly 17 nodes, the head pattern exactly 8,
and every connection index pair refers to valid indices of its node list. -/
theorem c8_graph_shape :
    nodes.length = 17 ∧ h_nodes.length = 8 ∧
    (∀ ab ∈ conns, ab.1 < nodes.length ∧ ab.2 < nodes.length) ∧
    (∀ ab ∈ h_conns, ab.1 < h_nodes.length ∧ ab.2 < h_nodes.length) :=
  ⟨by decide, by decide, by decide, by decide⟩

theorem c8_witness :
    (0 < nodes.length ∧ 1 < nodes.length) ∧
    (0 < h_nodes.length ∧ 1 < h_nodes.length) :=
  ⟨c8_graph_shape.2.2.1 (0, 1) (by decide), c8_graph_shape.2.2.2 (0, 1) (by decide)⟩

/-- C9: the per-channel interpolation `lerp` hits both endpoints exactly:
for equal-length integer colour tuples, `lerp c1 c2 0 = c1` and
`lerp c1 c2 1 = c2`, despite the per-channel truncation. -/
theorem c9_lerp_endpoints (c1 c2 : List ℤ) (h : c1.length = c2.length) :
    lerp c1 c2 0 = c1 ∧ lerp c1 c2 1 = c2 := by
  induction c1 generalizing c2 with
  | nil =>
    cases c2 with
    | nil => exact ⟨rfl, rfl⟩
    | cons y ys => simp at h
  | cons x xs ih =>
    cases c2 with
    | nil => simp at h
    | cons y ys =>
      simp only [List.length_cons, Nat.add_right_cancel_iff] at h
      obtain ⟨h0, h1⟩ := ih ys h
      constructor
      · show pyIntQ ((x : ℚ) + ((y : ℚ) - (x : ℚ)) * 0) :: lerp xs ys 0 = x :: xs
        rw [show ((x : ℚ) + ((y : ℚ) - (x : ℚ)) * 0) = (x : ℚ) by ring,
          pyIntQ_intCast, h0]
      · show pyIntQ ((x : ℚ) + ((y : ℚ) - (x : ℚ)) * 1) :: lerp xs ys 1 = y :: ys
        rw [show ((x : ℚ) + ((y : ℚ) - (x : ℚ)) * 1) = (y : ℚ) by ring,
          pyIntQ_intCast, h1]

theorem c9_witness : lerp [0] [1] 0 = [0] ∧ lerp [0] [1] 1 = [1] :=
  c9_lerp_endpoints [0] [1] rfl

/-- C4: the render pipeline is a pure function of the seeded generator
stream: two runs with the same stream produce identical output rasters
(both files), since all geometry is constant and only the ambient particles
consume the stream. -/
theorem c4_deterministic_render (rast : Rasterizer) (g1 g2 : RngStream)
    (h : g1 = g2) :
    imgFinal rast g1 = imgFinal rast g2 ∧ imgRGBOut rast g1 = imgRGBOut rast g2 := by
  subst h
  exact ⟨rfl, rfl⟩

def gZero : RngStream := fun _ => 0

def rastKeep : Rasterizer := fun _ f => f

theorem c4_witness :
    imgFinal rastKeep gZero = imgFinal rastKeep gZero ∧
    imgRGBOut rastKeep gZero = imgRGBOut rastKeep gZero :=
  c4_deterministic_render rastKeep gZero gZero rfl

/-- C2 (amended): the saved RGBA file has a trivial alpha channel — after
`alpha_composite` over the opaque dark background every pixel has alpha
exactly 255 — and the opaque RGB file is its alpha-free conversion, so no
effective transparency remains in either output. -/
theorem c2_alpha_fully_resolved (rast : Rasterizer) (g : RngStream) :
    ∃ f0, imgFinal rast g = some f0 ∧ (∀ p, (f0.pix p).a = 255) ∧
      imgRGBOut rast g = some (convertRGB f0) := by
  refine ⟨_, imgFinal_eq rast g, fun p => compositePix_bg_alpha _, ?_⟩
  unfold imgRGBOut
  rw [imgFinal_eq rast g]
  rfl

/-- C2 counterexample: the claim asserts some pixel of the RGBA output has
alpha different from 255; but whatever 8-bit alpha a drawn pixel carries,
compositing it over the opaque `BG_DARK` backdrop yields alpha 255, so no
such pixel exists. -/
theorem c2_counterexample_no_transparent_pixel :
    ¬ ∃ a : Fin 256, (compositePix BG_DARK ⟨212, 168, 83, (a : ℕ)⟩).a ≠ 255 := by
  decide

/-- C1: for every chest connection the base alpha of its rendered lines
equals `100 + floor(50 * (1 - min(dist/200, 1)))` of the Euclidean distance
between its endpoints, and `base_alpha` is monotonically non-increasing in
the distance, so a shorter connection never renders less opaque than a
longer one. -/
theorem c1_base_alpha_formula_and_monotone :
    (∀ ab ∈ conns,
      connBaseAlpha ab = 100 + ⌊(50 : ℝ) * (1 - min (connDist ab / 200) 1)⌋) ∧
    ∀ d1 d2 : ℝ, d1 ≤ d2 → base_alpha d2 ≤ base_alpha d1 := by
  constructor
  · intro ab _
    exact base_alpha_eq _
  · intro d1 d2 h
    rw [base_alpha_eq, base_alpha_eq]
    have hm : min (d1 / 200) 1 ≤ min (d2 / 200) 1 :=
      min_le_min (by linarith) le_rfl
    have hmul : (50 : ℝ) * (1 - min (d2 / 200) 1) ≤ 50 * (1 - min (d1 / 200) 1) := by
      nlinarith
    have := Int.floor_le_floor hmul
    omega

theorem c1_witness :
    connBaseAlpha (0, 1) = 100 + ⌊(50 : ℝ) * (1 - min (connDist (0, 1) / 200) 1)⌋ ∧
    base_alpha 1 ≤ base_alpha 0 :=
  ⟨c1_base_alpha_formula_and_monotone.1 (0, 1) (by decide),
   c1_base_alpha_formula_and_monotone.2 0 1 zero_le_one⟩

/-- C10: every chest connection's base alpha lies in the inclusive range
[100, 150], so each of the four drawing passes uses an alpha that is a
valid 8-bit channel value of at most 150. -/
theorem c10_pass_alpha_range :
    ∀ ab ∈ conns, (100 ≤ connBaseAlpha ab ∧ connBaseAlpha ab ≤ 150) ∧
      ∀ wc ∈ connPasses (connBaseAlpha ab), 0 ≤ wc.2.a ∧ wc.2.a ≤ 150 := by
  intro ab _
  obtain ⟨h1, h2⟩ := connBaseAlpha_bounds ab
  refine ⟨⟨h1, h2⟩, ?_⟩
  generalize connBaseAlpha ab = k at h1 h2
  intro wc hwc
  simp only [connPasses, List.mem_cons, List.not_mem_nil, or_false] at hwc
  rcases hwc with rfl | rfl | rfl | rfl
  · show 0 ≤ Int.fdiv k 3 ∧ Int.fdiv k 3 ≤ 150
    rw [Int.fdiv_eq_ediv _ (by norm_num)]
    omega
  · show 0 ≤ Int.fdiv k 2 ∧ Int.fdiv k 2 ≤ 150
    rw [Int.fdiv_eq_ediv _ (by norm_num)]
    omega
  · show 0 ≤ k ∧ k ≤ 150
    omega
  · show 0 ≤ Int.fdiv k 2 ∧ Int.fdiv k 2 ≤ 150
    rw [Int.fdiv_eq_ediv _ (by norm_num)]
    omega

theorem c10_witness :
    100 ≤ connBaseAlpha (0, 1) ∧ connBaseAlpha (0, 1) ≤ 150 :=
  (c10_pass_alpha_range (0, 1) (by decide)).1

/-- C3 counterexample: the head-pattern glow rendering draws its three
passes with alphas 30, 70, 35, so the alpha does not increase from one pass
to the next (the final bright-core pass drops from 70 to 35). -/
theorem c3_counterexample_alpha_not_increasing :
    ¬ List.Chain' (fun p q : ℕ × Color => p.2.a ≤ q.2.a) hConnPasses := by
  simp only [hConnPasses, List.chain'_cons, List.chain'_singleton, and_true]
  decide

/-- C3 (amended): every glow-style line rendering draws the same segment in
3 to 4 passes with strictly decreasing stroke width; the alpha strictly
increases from each pass to the next up to the main-line pass, and the
final bright-core pass then drops back to half the main alpha. -/
theorem c3_amended_glow_passes :
    (hConnPasses.length = 3 ∧
      List.Chain' (fun p q : ℕ × Color => q.1 < p.1) hConnPasses ∧
      List.Chain' (fun x y : ℤ => x < y) ((hConnPasses.map (fun wc => wc.2.a)).dropLast) ∧
      (hConnPasses.map (fun wc => wc.2.a)).getD 2 0 =
        Int.fdiv ((hConnPasses.map (fun wc => wc.2.a)).getD 1 0) 2) ∧
    ∀ ab ∈ conns,
      (connPasses (connBaseAlpha ab)).length = 4 ∧
      List.Chain' (fun p q : ℕ × Color => q.1 < p.1) (connPasses (connBaseAlpha ab)) ∧
      List.Chain' (fun x y : ℤ => x < y)
        (((connPasses (connBaseAlpha ab)).map (fun wc => wc.2.a)).dropLast) ∧
      ((connPasses (connBaseAlpha ab)).map (fun wc => wc.2.a)).getD 3 0 <
        ((connPasses (connBaseAlpha ab)).map (fun wc => wc.2.a)).getD 2 0 := by
  refine ⟨⟨by decide, ?_, ?_, by decide⟩, ?_⟩
  · simp only [hConnPasses, List.chain'_cons, List.chain'_singleton, and_true]
    decide
  · simp only [hConnPasses, List.map_cons, List.map_nil, List.dropLast,
      List.chain'_cons, List.chain'_singleton, and_true]
    decide
  intro ab _
  obtain ⟨h1, h2⟩ := connBaseAlpha_bounds ab
  generalize connBaseAlpha ab = k at h1 h2
  refine ⟨rfl, ?_, ?_, ?_⟩
  · simp only [connPasses, List.chain'_cons, List.chain'_singleton, and_true]
    omega
  · show List.Chain' (fun x y : ℤ => x < y) [Int.fdiv k 3, Int.fdiv k 2, k]
    simp only [List.chain'_cons, List.chain'_singleton, and_true]
    rw [Int.fdiv_eq_ediv _ (by norm_num), Int.fdiv_eq_ediv _ (by norm_num)]
    omega
  · show Int.fdiv k 2 < k
    rw [Int.fdiv_eq_ediv _ (by norm_num)]
    omega

theorem c3_witness : (connPasses (connBaseAlpha (0, 1))).length = 4 :=
  (c3_amended_glow_passes.2 (0, 1) (by decide)).1

/-- Each unit draw of the seeded generator lies in `[0, 1)`. -/
theorem unitDraw_mem (g : RngStream) (k : ℕ) :
    0 ≤ unitDraw g k ∧ unitDraw g k < 1 := by
  unfold unitDraw
  constructor
  · positivity
  · rw [div_lt_one (by norm_num [twoPow53])]
    exact_mod_cast Nat.mod_lt _ (by norm_num [twoPow53])

/-- C7: the ambient scatter draws exactly 25 particles; each has angle in
`[0, 2*pi)`, radial distance in the annulus `[360, 465)`, size in `{1, 2}`,
and alpha in `[15, 45]`; and the particle list is a function of the seeded
stream only, hence reproducible bit-for-bit across runs. -/
theorem c7_ambient_particles (g : RngStream) :
    (particles g).length = 25 ∧
    (∀ p ∈ particles g,
      (0 ≤ angleOf p ∧ angleOf p < 2 * Real.pi) ∧
      (360 ≤ p.dist ∧ p.dist < 465) ∧
      (p.sz = 1 ∨ p.sz = 2) ∧
      (15 ≤ p.alpha ∧ p.alpha ≤ 45)) ∧
    (∀ g2, g = g2 → particles g = particles g2) := by
  refine ⟨by simp [particles], ?_, fun g2 h => by rw [h]⟩
  intro p hp
  simp only [particles, List.mem_map, List.mem_range] at hp
  obtain ⟨i, _, rfl⟩ := hp
  obtain ⟨hu0, hu1⟩ := unitDraw_mem g (4 * i)
  obtain ⟨hv0, hv1⟩ := unitDraw_mem g (4 * i + 1)
  have hu0R : (0 : ℝ) ≤ ((unitDraw g (4 * i) : ℚ) : ℝ) := by exact_mod_cast hu0
  have hu1R : ((unitDraw g (4 * i) : ℚ) : ℝ) < 1 := by exact_mod_cast hu1
  refine ⟨⟨?_, ?_⟩, ⟨?_, ?_⟩, ?_, ?_, ?_⟩
  · show 0 ≤ 2 * Real.pi * ((unitDraw g (4 * i) : ℚ) : ℝ)
    exact mul_nonneg (by positivity) hu0R
  · show 2 * Real.pi * ((unitDraw g (4 * i) : ℚ) : ℝ) < 2 * Real.pi
    calc 2 * Real.pi * ((unitDraw g (4 * i) : ℚ) : ℝ)
        < 2 * Real.pi * 1 := mul_lt_mul_of_pos_left hu1R (by positivity)
      _ = 2 * Real.pi := mul_one _
  · show (360 : ℚ) ≤ 360 + (465 - 360) * unitDraw g (4 * i + 1)
    linarith
  · show 360 + (465 - 360) * unitDraw g (4 * i + 1) < 465
    linarith
  · show [1, 1, 2].getD (g (4 * i + 2) % 3) 1 = 1 ∨ [1, 1, 2].getD (g (4 * i + 2) % 3) 1 = 2
    have h3 : g (4 * i + 2) % 3 = 0 ∨ g (4 * i + 2) % 3 = 1 ∨ g (4 * i + 2) % 3 = 2 := by
      omega
    rcases h3 with h | h | h <;> rw [h] <;> simp
  · show 15 ≤ 15 + g (4 * i + 3) % 31
    omega
  · show 15 + g (4 * i + 3) % 31 ≤ 45
    have h31 : g (4 * i + 3) % 31 < 31 := Nat.mod_lt _ (by norm_num)
    omega

theorem c7_witness :
    ((0 ≤ angleOf (mkParticle gZero 0) ∧ angleOf (mkParticle gZero 0) < 2 * Real.pi) ∧
     (360 ≤ (mkParticle gZero 0).dist ∧ (mkParticle gZero 0).dist < 465) ∧
     ((mkParticle gZero 0).sz = 1 ∨ (mkParticle gZero 0).sz = 2) ∧
     (15 ≤ (mkParticle gZero 0).alpha ∧ (mkParticle gZero 0).alpha ≤ 45)) ∧
    particles gZero = particles gZero :=
  ⟨(c7_ambient_particles gZero).2.1 (mkParticle gZero 0)
      (List.mem_map.mpr ⟨0, List.mem_range.mpr (by norm_num), rfl⟩),
   (c7_ambient_particles gZero).2.2 gZero rfl⟩

end Mascot
